import Mathlib

/-!
Shallow embedding of `src/download_music.py`.

The script reads a CSV file whose header names at least the columns
"Track Name" and "Artist Name(s)" and, for each data row, prints a progress
line and invokes the external downloader with the single argument
`"ytsearch:" + artists + " " + name`, under a fixed option mapping
`ydl_opts`.  We model:

* the parsed CSV file as a `List Row`, each `Row` the list of field strings
  of one line (the first row is the header);
* `csv.DictReader` row dictionaries via `rowLookup`: the Python dict is
  built from `zip(fieldnames, row)` with trailing missing fields filled
  with the default `restval = None`, a duplicated header name resolved to
  its last occurrence, and blank rows skipped by the reader;
* the filesystem as a partial map from paths to parsed file contents;
* one `ydl.download` invocation as an oracle `dl : String → Bool` telling
  whether the invocation for a given argument succeeds;
* the observable behaviour of a run as the list of `Event`s (progress
  prints and download invocations, in program order) together with an
  optional abnormal-termination error.
-/

/-- One parsed CSV line: its list of fields. -/
abbrev Row := List String

/-- Index of the last occurrence of `k` in the header-name list.
`dict(zip(fieldnames, row))` keeps, for a duplicated key, the value paired
with the key's last occurrence; with the `restval` fill this makes the
value of key `k` the field at the last occurrence of `k`, when present. -/
def lastIdxOf (k : String) : List String → Option Nat
  | [] => none
  | a :: t =>
    match lastIdxOf k t with
    | some i => some (i + 1)
    | none => if a = k then some 0 else none

/-- `row[k]` on a `csv.DictReader` row with header `header` and fields `r`:
`none` models a `KeyError` (`k` is not a field name at all); `some none`
models the Python value `None` (the `restval` fill of a short row);
`some (some s)` models the string value `s`. -/
def rowLookup (header : List String) (r : Row) (k : String) : Option (Option String) :=
  (lastIdxOf k header).map (fun i => r[i]?)

/-- Python string conversion as the f-strings use it: `None` renders as
"None", a string renders as itself. -/
def strOfVal : Option String → String
  | none => "None"
  | some s => s

/-- The free-text search query built for one record: artist names, one
space, track name (line 26 of the script). -/
def searchQuery (artists name : String) : String := artists ++ " " ++ name

/-- The argument passed to the download invocation: the `ytsearch:` scheme
applied to the search query (line 26). -/
def downloadArg (artists name : String) : String := "ytsearch:" ++ searchQuery artists name

/-- One entry of the `postprocessors` list of `ydl_opts` (lines 12-15). -/
structure Postprocessor where
  key : String
  preferredcodec : String
deriving DecidableEq

/-- The `ydl_opts` mapping (lines 10-17): it has exactly the keys `format`,
`postprocessors` and `outtmpl`. -/
structure YdlOpts where
  format : String
  postprocessors : List Postprocessor
  outtmpl : String
deriving DecidableEq

/-- `os.path.expanduser("~/Music")` (line 8), with the user's home
directory as a parameter. -/
def output_dir (home : String) : String := home ++ "/Music"

/-- The configuration mapping built on lines 10-17 of the script. -/
def ydl_opts (home : String) : YdlOpts :=
  { format := "bestaudio/best",
    postprocessors := [{ key := "FFmpegExtractAudio", preferredcodec := "mp3" }],
    outtmpl := output_dir home ++ "/%(title)s.%(ext)s" }

/-- An observable effect of the script, in program order. -/
inductive Event where
  | print (msg : String)
  | download (opts : YdlOpts) (arg : String)
deriving DecidableEq

/-- The ways a run terminates abnormally: `open` on a missing path, a row
subscript with a key the header lacks, or a failing download invocation. -/
inductive PyError where
  | fileNotFound
  | keyError (k : String)
  | downloadError (arg : String)
deriving DecidableEq

/-- What the loop body does with one row before any effect is emitted:
the reader skips a blank row; subscripting with a key the header lacks
raises `KeyError`; otherwise the progress message and download argument
are built from the two field values and the download oracle is consulted. -/
inductive RowOutcome where
  | skip
  | err (e : PyError)
  | ok (msg : String) (arg : String) (success : Bool)
deriving DecidableEq

/-- The loop body of lines 22-26 for a single row. -/
def stepRow (dl : String → Bool) (header : List String) (r : Row) : RowOutcome :=
  if r.isEmpty then .skip
  else
    match rowLookup header r "Track Name" with
    | none => .err (.keyError "Track Name")
    | some nameV =>
      match rowLookup header r "Artist Name(s)" with
      | none => .err (.keyError "Artist Name(s)")
      | some artistsV =>
        .ok ("Downloading: " ++ strOfVal artistsV ++ " - " ++ strOfVal nameV)
          (downloadArg (strOfVal artistsV) (strOfVal nameV))
          (dl (downloadArg (strOfVal artistsV) (strOfVal nameV)))

/-- The `for row in reader` loop (lines 22-26): rows are processed strictly
in order; an uncaught error ends the run at once, so nothing after a
`KeyError` or a failed download invocation is executed. -/
def processRows (opts : YdlOpts) (dl : String → Bool) (header : List String) :
    List Row → List Event × Option PyError
  | [] => ([], none)
  | r :: rest =>
    match stepRow dl header r with
    | .skip => processRows opts dl header rest
    | .err e => ([], some e)
    | .ok msg arg true =>
      let rec2 := processRows opts dl header rest
      (.print msg :: .download opts arg :: rec2.1, rec2.2)
    | .ok msg arg false =>
      ([.print msg, .download opts arg], some (.downloadError arg))

/-- The whole script (lines 19-26): open the input path, read the header,
then run the loop.  A missing path raises `FileNotFoundError`; a file with
no rows at all makes `DictReader` yield nothing. -/
def run (home : String) (fs : String → Option (List Row)) (dl : String → Bool)
    (path : String) : List Event × Option PyError :=
  match fs path with
  | none => ([], some .fileNotFound)
  | some [] => ([], none)
  | some (header :: dataRows) => processRows (ydl_opts home) dl header dataRows

/-- The download invocations of a trace, in order, each with the option
mapping it was issued under. -/
def downloadsOf : List Event → List (YdlOpts × String)
  | [] => []
  | .download o a :: t => (o, a) :: downloadsOf t
  | .print _ :: t => downloadsOf t

/-- The non-blank rows of a file: the rows `csv.DictReader` yields. -/
def nonBlank (rows : List Row) : List Row := rows.filter (fun r => !r.isEmpty)

/-- A row that supplies an actual string for both required columns. -/
def goodRow (header : List String) (r : Row) : Prop :=
  (∃ s, rowLookup header r "Track Name" = some (some s)) ∧
  (∃ s, rowLookup header r "Artist Name(s)" = some (some s))

/-- The download argument built from a row, reading the two dict values. -/
def argOfRow (header : List String) (r : Row) : String :=
  downloadArg (strOfVal ((rowLookup header r "Artist Name(s)").getD none))
    (strOfVal ((rowLookup header r "Track Name").getD none))

/-- Two rows, each under its own header, agree on the two columns the
script reads. -/
def agreeOn (h1 h2 : List String) (r1 r2 : Row) : Prop :=
  rowLookup h1 r1 "Track Name" = rowLookup h2 r2 "Track Name" ∧
  rowLookup h1 r1 "Artist Name(s)" = rowLookup h2 r2 "Artist Name(s)"

/-! ## Helper lemmas -/

theorem isEmpty_false_of_ne_nil {r : Row} (h : r ≠ []) : r.isEmpty = false := by
  cases r with
  | nil => exact absurd rfl h
  | cons a t => rfl

theorem rowLookup_some_ne_nil {header : List String} {r : Row} {k s : String}
    (h : rowLookup header r k = some (some s)) : r ≠ [] := by
  intro he
  subst he
  cases hL : lastIdxOf k header with
  | none => rw [rowLookup, hL] at h; simp at h
  | some i => rw [rowLookup, hL] at h; simp [List.getElem?_nil] at h

theorem goodRow_ne_nil {header : List String} {r : Row} (h : goodRow header r) : r ≠ [] := by
  obtain ⟨⟨s, hs⟩, _⟩ := h
  exact rowLookup_some_ne_nil hs

theorem stepRow_of_lookups (dl : String → Bool) {header : List String} {r : Row}
    {name artists : String}
    (hT : rowLookup header r "Track Name" = some (some name))
    (hA : rowLookup header r "Artist Name(s)" = some (some artists)) :
    stepRow dl header r =
      RowOutcome.ok ("Downloading: " ++ artists ++ " - " ++ name)
        (downloadArg artists name) (dl (downloadArg artists name)) := by
  have hne := rowLookup_some_ne_nil hT
  simp [stepRow, isEmpty_false_of_ne_nil hne, hT, hA, strOfVal]

theorem argOfRow_eq {header : List String} {r : Row} {name artists : String}
    (hT : rowLookup header r "Track Name" = some (some name))
    (hA : rowLookup header r "Artist Name(s)" = some (some artists)) :
    argOfRow header r = downloadArg artists name := by
  simp [argOfRow, hT, hA, strOfVal]

theorem processRows_cons_skip {opts : YdlOpts} {dl : String → Bool} {header : List String}
    {r : Row} {rest : List Row} (h : stepRow dl header r = RowOutcome.skip) :
    processRows opts dl header (r :: rest) = processRows opts dl header rest := by
  simp [processRows, h]

theorem processRows_cons_err {opts : YdlOpts} {dl : String → Bool} {header : List String}
    {r : Row} {rest : List Row} {e : PyError} (h : stepRow dl header r = RowOutcome.err e) :
    processRows opts dl header (r :: rest) = ([], some e) := by
  simp [processRows, h]

theorem processRows_cons_ok_true {opts : YdlOpts} {dl : String → Bool} {header : List String}
    {r : Row} {rest : List Row} {msg arg : String}
    (h : stepRow dl header r = RowOutcome.ok msg arg true) :
    processRows opts dl header (r :: rest) =
      (Event.print msg :: Event.download opts arg :: (processRows opts dl header rest).1,
        (processRows opts dl header rest).2) := by
  simp [processRows, h]

theorem processRows_cons_ok_false {opts : YdlOpts} {dl : String → Bool} {header : List String}
    {r : Row} {rest : List Row} {msg arg : String}
    (h : stepRow dl header r = RowOutcome.ok msg arg false) :
    processRows opts dl header (r :: rest) =
      ([Event.print msg, Event.download opts arg], some (PyError.downloadError arg)) := by
  simp [processRows, h]

theorem nonBlank_nil : nonBlank [] = [] := rfl

theorem nonBlank_cons_blank {t : List Row} : nonBlank ([] :: t) = nonBlank t := rfl

theorem nonBlank_cons_of_ne_nil {r : Row} {t : List Row} (h : r ≠ []) :
    nonBlank (r :: t) = r :: nonBlank t := by
  simp [nonBlank, List.filter_cons, isEmpty_false_of_ne_nil h]

theorem ne_nil_of_mem_nonBlank {r : Row} {rows : List Row} (h : r ∈ nonBlank rows) :
    r ≠ [] := by
  have := List.of_mem_filter h
  intro he
  subst he
  simp at this

theorem processRows_nonBlank (opts : YdlOpts) (dl : String → Bool) (header : List String) :
    ∀ rows : List Row, processRows opts dl header rows = processRows opts dl header (nonBlank rows)
  | [] => rfl
  | r :: t => by
    by_cases hr : r = []
    · subst hr
      have hs : stepRow dl header [] = RowOutcome.skip := rfl
      rw [processRows_cons_skip hs, nonBlank_cons_blank]
      exact processRows_nonBlank opts dl header t
    · rw [nonBlank_cons_of_ne_nil hr]
      have ih := processRows_nonBlank opts dl header t
      cases hs : stepRow dl header r with
      | skip => rw [processRows_cons_skip hs, processRows_cons_skip hs, ih]
      | err e => rw [processRows_cons_err hs, processRows_cons_err hs]
      | ok msg arg success =>
        cases success with
        | true => rw [processRows_cons_ok_true hs, processRows_cons_ok_true hs, ih]
        | false => rw [processRows_cons_ok_false hs, processRows_cons_ok_false hs]

theorem stepRow_agree (dl : String → Bool) (h1 h2 : List String) (r1 r2 : Row)
    (hne1 : r1 ≠ []) (hne2 : r2 ≠ []) (hag : agreeOn h1 h2 r1 r2) :
    stepRow dl h1 r1 = stepRow dl h2 r2 := by
  obtain ⟨hT, hA⟩ := hag
  simp only [stepRow, isEmpty_false_of_ne_nil hne1, isEmpty_false_of_ne_nil hne2,
    Bool.false_eq_true, if_false, hT, hA]

theorem processRows_agree (opts : YdlOpts) (dl : String → Bool) (h1 h2 : List String)
    {l1 l2 : List Row} (hnb1 : ∀ r ∈ l1, r ≠ []) (hnb2 : ∀ r ∈ l2, r ≠ [])
    (hag : List.Forall₂ (agreeOn h1 h2) l1 l2) :
    processRows opts dl h1 l1 = processRows opts dl h2 l2 := by
  induction hag with
  | nil => rfl
  | @cons a b t1 t2 hrel hrest ih =>
    have hne1 : a ≠ [] := hnb1 a (List.mem_cons_self a t1)
    have hne2 : b ≠ [] := hnb2 b (List.mem_cons_self b t2)
    have hstep := stepRow_agree dl h1 h2 a b hne1 hne2 hrel
    have ih2 := ih (fun r hr => hnb1 r (List.mem_cons_of_mem a hr))
      (fun r hr => hnb2 r (List.mem_cons_of_mem b hr))
    cases hs : stepRow dl h2 b with
    | skip =>
      rw [processRows_cons_skip (hstep.trans hs), processRows_cons_skip hs, ih2]
    | err e =>
      rw [processRows_cons_err (hstep.trans hs), processRows_cons_err hs]
    | ok msg arg success =>
      cases success with
      | true =>
        rw [processRows_cons_ok_true (hstep.trans hs), processRows_cons_ok_true hs, ih2]
      | false =>
        rw [processRows_cons_ok_false (hstep.trans hs), processRows_cons_ok_false hs]

theorem processRows_all_ok (opts : YdlOpts) (dl : String → Bool) (header : List String)
    (hdl : ∀ s, dl s = true) :
    ∀ rows : List Row, (∀ r ∈ rows, goodRow header r) →
      (processRows opts dl header rows).2 = none ∧
      (downloadsOf (processRows opts dl header rows).1).length = rows.length
  | [], _ => ⟨rfl, rfl⟩
  | r :: t, hg => by
    obtain ⟨⟨name, hT⟩, ⟨artists, hA⟩⟩ := hg r (List.mem_cons_self r t)
    have hs := stepRow_of_lookups dl hT hA
    rw [hdl (downloadArg artists name)] at hs
    have ih := processRows_all_ok opts dl header hdl t
      (fun x hx => hg x (List.mem_cons_of_mem r hx))
    rw [processRows_cons_ok_true hs]
    refine ⟨ih.1, ?_⟩
    simp [downloadsOf, ih.2]

theorem processRows_no_col (opts : YdlOpts) (dl : String → Bool) (header : List String)
    (hcol : lastIdxOf "Track Name" header = none) :
    ∀ rows : List Row, (∃ r ∈ rows, r ≠ []) →
      processRows opts dl header rows = ([], some (PyError.keyError "Track Name"))
  | [], h => absurd h (by simp)
  | r :: t, h => by
    by_cases hr : r = []
    · subst hr
      have hs : stepRow dl header [] = RowOutcome.skip := rfl
      rw [processRows_cons_skip hs]
      apply processRows_no_col opts dl header hcol t
      obtain ⟨w, hw, hwne⟩ := h
      rcases List.mem_cons.mp hw with h1 | h2
      · exact absurd h1 hwne
      · exact ⟨w, h2, hwne⟩
    · have hs : stepRow dl header r = RowOutcome.err (PyError.keyError "Track Name") := by
        simp [stepRow, isEmpty_false_of_ne_nil hr, rowLookup, hcol]
      rw [processRows_cons_err hs]

theorem downloadsOf_opts_const (opts : YdlOpts) (dl : String → Bool) (header : List String) :
    ∀ rows : List Row,
      (downloadsOf (processRows opts dl header rows).1).all (fun p => p.1 == opts) = true
  | [] => rfl
  | r :: t => by
    have ih := downloadsOf_opts_const opts dl header t
    cases hs : stepRow dl header r with
    | skip => rw [processRows_cons_skip hs]; exact ih
    | err e => rw [processRows_cons_err hs]; rfl
    | ok msg arg success =>
      cases success with
      | true =>
        rw [processRows_cons_ok_true hs]
        simp [downloadsOf, ih]
      | false =>
        rw [processRows_cons_ok_false hs]
        simp [downloadsOf]

theorem processRows_abort (opts : YdlOpts) (dl : String → Bool) (header : List String)
    (bad : Row) (post : List Row) (hbad : goodRow header bad)
    (hbaddl : dl (argOfRow header bad) = false) :
    ∀ pre : List Row, (∀ r ∈ pre, goodRow header r) →
      (∀ r ∈ pre, dl (argOfRow header r) = true) →
      downloadsOf (processRows opts dl header (pre ++ bad :: post)).1
        = (pre ++ [bad]).map (fun r => (opts, argOfRow header r)) ∧
      (processRows opts dl header (pre ++ bad :: post)).2
        = some (PyError.downloadError (argOfRow header bad))
  | [], _, _ => by
    obtain ⟨⟨name, hT⟩, ⟨artists, hA⟩⟩ := hbad
    have harg := argOfRow_eq hT hA
    have hs := stepRow_of_lookups dl hT hA
    rw [harg] at hbaddl ⊢
    rw [hbaddl] at hs
    rw [List.nil_append, processRows_cons_ok_false hs]
    simp [downloadsOf, harg]
  | r :: pre, hg, hdl => by
    obtain ⟨⟨name, hT⟩, ⟨artists, hA⟩⟩ := hg r (List.mem_cons_self r pre)
    have harg := argOfRow_eq hT hA
    have hs := stepRow_of_lookups dl hT hA
    have hr : dl (downloadArg artists name) = true := by
      rw [← harg]; exact hdl r (List.mem_cons_self r pre)
    rw [hr] at hs
    have ih := processRows_abort opts dl header bad post hbad hbaddl pre
      (fun x hx => hg x (List.mem_cons_of_mem r hx))
      (fun x hx => hdl x (List.mem_cons_of_mem r hx))
    rw [List.cons_append, processRows_cons_ok_true hs]
    refine ⟨?_, ih.2⟩
    simp only [downloadsOf]
    rw [ih.1]
    simp [harg]

/-! ## Claims -/

/-- Claim C1: for every record the query builder output is the artist-names
field, a single space, then the track-name field; the download invocation
receives exactly the `ytsearch:` scheme applied to that query; and for the
row with Track Name "Imagine" and Artist Name(s) "John Lennon" the
constructed query is "John Lennon Imagine" and the run issues exactly that
invocation. -/
theorem C1_query_shape (artists name : String) :
    searchQuery artists name = artists ++ " " ++ name ∧
    downloadArg artists name = "ytsearch:" ++ searchQuery artists name ∧
    searchQuery "John Lennon" "Imagine" = "John Lennon Imagine" ∧
    run "/home/user"
        (fun p => if p = "tracks.csv" then
          some [["Track Name", "Artist Name(s)"], ["Imagine", "John Lennon"]] else none)
        (fun _ => true) "tracks.csv"
      = ([Event.print "Downloading: John Lennon - Imagine",
          Event.download (ydl_opts "/home/user")
            ("ytsearch:" ++ searchQuery "John Lennon" "Imagine")], none) :=
  ⟨rfl, rfl, by decide, by decide⟩

/-- Claim C2: for a well-formed input file (header present, every data row
supplying both required fields, every download succeeding), the run ends
without error and the number of download invocations equals the number of
data rows. -/
theorem C2_download_count (home : String) (fs : String → Option (List Row))
    (dl : String → Bool) (path : String) (header : List String) (dataRows : List Row)
    (hfs : fs path = some (header :: dataRows))
    (hdl : ∀ s, dl s = true)
    (hrows : ∀ r ∈ dataRows, goodRow header r) :
    (run home fs dl path).2 = none ∧
    (downloadsOf (run home fs dl path).1).length = dataRows.length := by
  simp only [run, hfs]
  exact processRows_all_ok (ydl_opts home) dl header hdl dataRows hrows

theorem C2_witness :
    (run "/h" (fun _ => some [["Track Name", "Artist Name(s)"], ["Imagine", "John Lennon"]])
        (fun _ => true) "tracks.csv").2 = none ∧
    (downloadsOf (run "/h"
        (fun _ => some [["Track Name", "Artist Name(s)"], ["Imagine", "John Lennon"]])
        (fun _ => true) "tracks.csv").1).length = 1 :=
  C2_download_count "/h" _ _ "tracks.csv" ["Track Name", "Artist Name(s)"]
    [["Imagine", "John Lennon"]] rfl (fun _ => rfl)
    (by
      intro r hr
      simp only [List.mem_singleton] at hr
      subst hr
      exact ⟨⟨"Imagine", by decide⟩, ⟨"John Lennon", by decide⟩⟩)

/-- Claim C3: a file holding only a header row yields zero download
invocations and no error. -/
theorem C3_header_only (home : String) (fs : String → Option (List Row)) (dl : String → Bool)
    (path : String) (header : List String) (hfs : fs path = some [header]) :
    run home fs dl path = ([], none) := by
  simp only [run, hfs]
  rfl

theorem C3_witness :
    run "/h" (fun _ => some [["Track Name", "Artist Name(s)"]]) (fun _ => true) "a.csv"
      = ([], none) :=
  C3_header_only "/h" _ _ "a.csv" ["Track Name", "Artist Name(s)"] rfl

/-- Claim C4, counterexample: a file whose header lacks "Track Name" but has
no data rows is processed without any error (and with zero downloads), so
"processing the file causes an error" fails for it. -/
theorem C4_counterexample :
    run "/home/user" (fun p => if p = "songs.csv" then some [["Artist Name(s)"]] else none)
      (fun _ => true) "songs.csv" = ([], none) := by decide

/-- Claim C4 (amended): for every input file whose header row lacks the
"Track Name" column and which holds at least one non-blank data row, the
run raises a `KeyError` for "Track Name" and performs no print and no
download invocation, so the error precedes any download attempt. -/
theorem C4_missing_column (home : String) (fs : String → Option (List Row))
    (dl : String → Bool) (path : String) (header : List String) (dataRows : List Row)
    (hfs : fs path = some (header :: dataRows))
    (hcol : lastIdxOf "Track Name" header = none)
    (hnb : ∃ r ∈ dataRows, r ≠ []) :
    run home fs dl path = ([], some (PyError.keyError "Track Name")) := by
  simp only [run, hfs]
  exact processRows_no_col (ydl_opts home) dl header hcol dataRows hnb

theorem C4_witness :
    run "/h" (fun _ => some [["Artist Name(s)"], ["x"]]) (fun _ => true) "a.csv"
      = ([], some (PyError.keyError "Track Name")) :=
  C4_missing_column "/h" _ _ "a.csv" ["Artist Name(s)"] [["x"]] rfl (by decide)
    ⟨["x"], by decide, by decide⟩

/-- Claim C5, counterexample: with header "Track Name","Artist Name(s)" and
the data row ["Imagine"], which has fewer fields than the header, the run
does not fail at all: the missing artist field reads as None and a download
invocation is still issued for the row. -/
theorem C5_counterexample :
    run "/home/user"
      (fun p => if p = "songs.csv" then
        some [["Track Name", "Artist Name(s)"], ["Imagine"]] else none)
      (fun _ => true) "songs.csv"
      = ([Event.print "Downloading: None - Imagine",
          Event.download (ydl_opts "/home/user") "ytsearch:None Imagine"], none) := by decide

/-- Claim C5 (amended): a missing-field `KeyError` occurs only when the
header lacks a required column; a non-blank data row under a header naming
both columns never raises it, however few fields the row has: a progress
print and a download invocation are always issued for it, and the run can
only end cleanly or with that invocation's download error. -/
theorem C5_short_row_no_error (opts : YdlOpts) (dl : String → Bool) (header : List String)
    (r : Row) (hne : r ≠ []) (i j : Nat)
    (hT : lastIdxOf "Track Name" header = some i)
    (hA : lastIdxOf "Artist Name(s)" header = some j) :
    ∃ msg arg,
      (processRows opts dl header [r]).1 = [Event.print msg, Event.download opts arg] ∧
      ((processRows opts dl header [r]).2 = none ∨
        (processRows opts dl header [r]).2 = some (PyError.downloadError arg)) := by
  have hTr : rowLookup header r "Track Name" = some (r[i]?) := by
    rw [rowLookup, hT]; rfl
  have hAr : rowLookup header r "Artist Name(s)" = some (r[j]?) := by
    rw [rowLookup, hA]; rfl
  have hstep : stepRow dl header r =
      RowOutcome.ok ("Downloading: " ++ strOfVal (r[j]?) ++ " - " ++ strOfVal (r[i]?))
        (downloadArg (strOfVal (r[j]?)) (strOfVal (r[i]?)))
        (dl (downloadArg (strOfVal (r[j]?)) (strOfVal (r[i]?)))) := by
    simp [stepRow, isEmpty_false_of_ne_nil hne, hTr, hAr]
  cases hd : dl (downloadArg (strOfVal (r[j]?)) (strOfVal (r[i]?))) with
  | true =>
    rw [hd] at hstep
    rw [processRows_cons_ok_true hstep]
    exact ⟨_, _, rfl, Or.inl rfl⟩
  | false =>
    rw [hd] at hstep
    rw [processRows_cons_ok_false hstep]
    exact ⟨_, _, rfl, Or.inr rfl⟩

theorem C5_witness :
    ∃ msg arg,
      (processRows (ydl_opts "/h") (fun _ => true)
          ["Track Name", "Artist Name(s)"] [["Imagine"]]).1
        = [Event.print msg, Event.download (ydl_opts "/h") arg] ∧
      ((processRows (ydl_opts "/h") (fun _ => true)
          ["Track Name", "Artist Name(s)"] [["Imagine"]]).2 = none ∨
        (processRows (ydl_opts "/h") (fun _ => true)
          ["Track Name", "Artist Name(s)"] [["Imagine"]]).2
          = some (PyError.downloadError arg)) :=
  C5_short_row_no_error (ydl_opts "/h") (fun _ => true) ["Track Name", "Artist Name(s)"]
    ["Imagine"] (by decide) 0 1 (by decide) (by decide)

/-- Claim C6: a path naming no existing file makes the run fail with the
file-not-found error, with no print and no download invocation. -/
theorem C6_missing_file (home : String) (fs : String → Option (List Row)) (dl : String → Bool)
    (path : String) (hfs : fs path = none) :
    run home fs dl path = ([], some PyError.fileNotFound) := by
  simp only [run, hfs]

theorem C6_witness :
    run "/h" (fun _ => none) (fun _ => true) "missing.csv"
      = ([], some PyError.fileNotFound) :=
  C6_missing_file "/h" _ _ "missing.csv" rfl

/-- Claim C7: download invocations are issued strictly in input-row order
and each completes or fails before the next: with the data rows split as
`pre ++ bad :: post`, all rows well-formed, every invocation for `pre`
succeeding and the one for `bad` failing, the invocations performed are
exactly those of `pre` then `bad`, in row order, none for any row of
`post`, and the run ends with the failing invocation's error. -/
theorem C7_sequential_abort (home : String) (fs : String → Option (List Row))
    (dl : String → Bool) (path : String) (header : List String)
    (pre : List Row) (bad : Row) (post : List Row)
    (hfs : fs path = some (header :: (pre ++ bad :: post)))
    (hpre : ∀ r ∈ pre, goodRow header r) (hbad : goodRow header bad)
    (hdlpre : ∀ r ∈ pre, dl (argOfRow header r) = true)
    (hdlbad : dl (argOfRow header bad) = false) :
    downloadsOf (run home fs dl path).1
      = (pre ++ [bad]).map (fun r => (ydl_opts home, argOfRow header r)) ∧
    (run home fs dl path).2 = some (PyError.downloadError (argOfRow header bad)) := by
  simp only [run, hfs]
  exact processRows_abort (ydl_opts home) dl header bad post hbad hdlbad pre hpre hdlpre

theorem C7_witness :
    downloadsOf (run "/h"
        (fun _ => some [["Track Name", "Artist Name(s)"], ["a", "b"], ["c", "d"], ["e", "f"]])
        (fun s => !(s == "ytsearch:d c")) "t.csv").1
      = [(ydl_opts "/h", "ytsearch:b a"), (ydl_opts "/h", "ytsearch:d c")] ∧
    (run "/h"
        (fun _ => some [["Track Name", "Artist Name(s)"], ["a", "b"], ["c", "d"], ["e", "f"]])
        (fun s => !(s == "ytsearch:d c")) "t.csv").2
      = some (PyError.downloadError "ytsearch:d c") := by
  have h := C7_sequential_abort "/h"
    (fun _ => some [["Track Name", "Artist Name(s)"], ["a", "b"], ["c", "d"], ["e", "f"]])
    (fun s => !(s == "ytsearch:d c")) "t.csv" ["Track Name", "Artist Name(s)"]
    [["a", "b"]] ["c", "d"] [["e", "f"]] rfl
    (by
      intro r hr
      simp only [List.mem_singleton] at hr
      subst hr
      exact ⟨⟨"a", by decide⟩, ⟨"b", by decide⟩⟩)
    ⟨⟨"c", by decide⟩, ⟨"d", by decide⟩⟩
    (by
      intro r hr
      simp only [List.mem_singleton] at hr
      subst hr
      decide)
    (by decide)
  refine ⟨?_, ?_⟩
  · rw [h.1]; decide
  · rw [h.2]; decide

/-- Claim C8: the configuration mapping is fixed for the whole run and
holds exactly the best-audio stream selection, the single mp3 transcoding
post-processing step, and the output template placing files under the
user's Music directory named by the remote title and the file extension;
every download invocation of any run is issued under exactly this
mapping. -/
theorem C8_config (home : String) (fs : String → Option (List Row)) (dl : String → Bool)
    (path : String) :
    ydl_opts home = { format := "bestaudio/best",
                      postprocessors := [{ key := "FFmpegExtractAudio",
                                           preferredcodec := "mp3" }],
                      outtmpl := output_dir home ++ "/%(title)s.%(ext)s" } ∧
    output_dir home = home ++ "/Music" ∧
    (downloadsOf (run home fs dl path).1).all (fun p => p.1 == ydl_opts home) = true := by
  refine ⟨rfl, rfl, ?_⟩
  cases hfs : fs path with
  | none => simp only [run, hfs]; rfl
  | some rows =>
    cases rows with
    | nil => simp only [run, hfs]; rfl
    | cons header dataRows =>
      simp only [run, hfs]
      exact downloadsOf_opts_const (ydl_opts home) dl header dataRows

/-- Claim C9: a data row whose two required fields are both empty strings
is neither validated nor skipped: the run still prints the progress line
and issues the download invocation whose query is built from the empty
fields (the query is the single space " ", the argument "ytsearch: "). -/
theorem C9_empty_fields (home : String) (fs : String → Option (List Row)) (dl : String → Bool)
    (path : String) (header : List String) (r : Row)
    (hfs : fs path = some [header, r])
    (hT : rowLookup header r "Track Name" = some (some ""))
    (hA : rowLookup header r "Artist Name(s)" = some (some ""))
    (hdl : dl (downloadArg "" "") = true) :
    run home fs dl path
      = ([Event.print "Downloading:  - ",
          Event.download (ydl_opts home) (downloadArg "" "")], none) ∧
    downloadArg "" "" = "ytsearch:" ++ searchQuery "" "" ∧
    searchQuery "" "" = " " := by
  have hs := stepRow_of_lookups dl hT hA
  rw [hdl] at hs
  refine ⟨?_, rfl, by decide⟩
  simp only [run, hfs]
  rw [processRows_cons_ok_true hs]
  rfl

theorem C9_witness :
    (run "/h" (fun _ => some [["Track Name", "Artist Name(s)"], ["", ""]])
        (fun _ => true) "t.csv"
      = ([Event.print "Downloading:  - ",
          Event.download (ydl_opts "/h") (downloadArg "" "")], none)) ∧
    downloadArg "" "" = "ytsearch:" ++ searchQuery "" "" ∧
    searchQuery "" "" = " " :=
  C9_empty_fields "/h" _ _ "t.csv" ["Track Name", "Artist Name(s)"] ["", ""] rfl
    (by decide) (by decide) rfl

/-- Claim C10: the behaviour of the loop depends only on the values the two
required columns give for each record: two files whose records agree on
"Track Name" and "Artist Name(s)" (whatever their other columns hold)
produce the same sequence of progress messages and download invocations
and the same termination. -/
theorem C10_noninterference (opts : YdlOpts) (dl : String → Bool)
    (h1 h2 : List String) (rows1 rows2 : List Row)
    (hag : List.Forall₂ (agreeOn h1 h2) (nonBlank rows1) (nonBlank rows2)) :
    processRows opts dl h1 rows1 = processRows opts dl h2 rows2 := by
  rw [processRows_nonBlank opts dl h1 rows1, processRows_nonBlank opts dl h2 rows2]
  exact processRows_agree opts dl h1 h2
    (fun r hr => ne_nil_of_mem_nonBlank hr) (fun r hr => ne_nil_of_mem_nonBlank hr) hag

theorem C10_witness :
    processRows (ydl_opts "/h") (fun _ => true) ["Track Name", "Artist Name(s)"]
        [["Imagine", "John Lennon"]]
      = processRows (ydl_opts "/h") (fun _ => true)
        ["Album", "Track Name", "Artist Name(s)"] [["X", "Imagine", "John Lennon"]] :=
  C10_noninterference (ydl_opts "/h") (fun _ => true) ["Track Name", "Artist Name(s)"]
    ["Album", "Track Name", "Artist Name(s)"] [["Imagine", "John Lennon"]]
    [["X", "Imagine", "John Lennon"]]
    (List.Forall₂.cons ⟨by decide, by decide⟩ List.Forall₂.nil)
